import Mathlib

/-!
Verification of the `scaff` repository: a shallow embedding of the
snapshot data model (`src/pattern.rs`), the reconciliation engine
(`src/validator.rs`), the snapshot store and default-snapshot config
(`src/pattern.rs`), the skeleton generator's template dispatch
(`src/generator.rs`) and the scanner's language dispatch
(`src/scanner.rs`).

External collaborators (the filesystem, serde_json's string layer,
tree-sitter parsing, handlebars rendering) are modelled at their
interfaces: the store directory is a finite map from structured file
names to JSON values, serialization is a JSON-value encoder/decoder
mirroring the derived Serialize/Deserialize instances, and template
rendering is a registry lookup that fails exactly when the requested
template name is unregistered (handlebars' behaviour).
-/
/-- `FilePattern` from `src/pattern.rs`: the four-category structural
fingerprint of one source file. -/
structure FilePattern where
  path : String
  extension : String
  classes : List String
  functions : List String
  structs : List String
  implementations : List String
  deriving Repr, DecidableEq

/-- `CodePattern` from `src/pattern.rs`: a named snapshot. -/
structure CodePattern where
  name : String
  description : String
  language : String
  files : List FilePattern
  created_at : String
  deriving Repr, DecidableEq

/-- `ValidationIssue` from `src/validator.rs`. -/
structure ValidationIssue where
  file_path : String
  item_type : String
  item_name : String
  deriving Repr, DecidableEq

/-- `ValidationResult` from `src/validator.rs`. -/
structure ValidationResult where
  scaff_name : String
  is_valid : Bool
  missing_files : List String
  extra_files : List String
  missing_items : List ValidationIssue
  extra_items : List ValidationIssue
  suggestions : List String
  deriving Repr, DecidableEq

/-- The `HashMap` built in `compare_structures` by inserting each file
under its path: `get` returns the value inserted last for the key. -/
def hashLookup (files : List FilePattern) (p : String) : Option FilePattern :=
  files.foldl (fun acc f => if f.path = p then some f else acc) none

/-- One iteration of the missing-item loop of
`ArchitectureValidator::compare_items` (`src/validator.rs:230-239`). -/
def missingItemStep (file_path item_type : String) (current_items : List String)
    (r : ValidationResult) (item : String) : ValidationResult :=
  if item ∈ current_items then r
  else { r with
          missing_items := r.missing_items ++ [⟨file_path, item_type, item⟩],
          is_valid := false }

/-- One iteration of the extra-item loop of
`ArchitectureValidator::compare_items` (`src/validator.rs:242-250`). -/
def extraItemStep (file_path item_type : String) (scaff_items : List String)
    (r : ValidationResult) (item : String) : ValidationResult :=
  if item ∈ scaff_items then r
  else { r with
          extra_items := r.extra_items ++ [⟨file_path, item_type, item⟩] }

/-- `ArchitectureValidator::compare_items` (`src/validator.rs:218-251`):
every occurrence in `scaff_items` absent from the current `HashSet` is
pushed as a missing item (invalidating), every occurrence in
`current_items` absent from the scaff `HashSet` as an extra item. -/
def compare_items (result : ValidationResult) (file_path item_type : String)
    (scaff_items current_items : List String) : ValidationResult :=
  let afterMissing :=
    scaff_items.foldl (missingItemStep file_path item_type current_items) result
  current_items.foldl (extraItemStep file_path item_type scaff_items) afterMissing

/-- `ArchitectureValidator::compare_file_items` (`src/validator.rs:173-216`):
compares the four category lists under the scaff file's path. -/
def compare_file_items (result : ValidationResult)
    (scaff_file current_file : FilePattern) : ValidationResult :=
  let file_path := scaff_file.path
  let r1 := compare_items result file_path "class" scaff_file.classes current_file.classes
  let r2 := compare_items r1 file_path "function" scaff_file.functions current_file.functions
  let r3 := compare_items r2 file_path "struct" scaff_file.structs current_file.structs
  compare_items r3 file_path "implementation" scaff_file.implementations
    current_file.implementations

/-- The declaration count quoted in the missing-file suggestion
(`src/validator.rs:126-129`). -/
def totalItems (f : FilePattern) : Nat :=
  f.classes.length + f.functions.length + f.structs.length + f.implementations.length

/-- The suggestion pushed for a missing file (`src/validator.rs:123-130`). -/
def missingFileSuggestion (f : FilePattern) : String :=
  "Create missing file: " ++ f.path ++ " (should contain " ++
    toString (totalItems f) ++ " items)"

/-- One iteration of the missing-file loop (`src/validator.rs:117-132`). -/
def missingFileStep (current_files : List FilePattern)
    (r : ValidationResult) (f : FilePattern) : ValidationResult :=
  if current_files.any (fun c => c.path == f.path) then r
  else { r with
          missing_files := r.missing_files ++ [f.path],
          is_valid := false,
          suggestions := r.suggestions ++ [missingFileSuggestion f] }

/-- One iteration of the extra-file loop (`src/validator.rs:135-140`). -/
def extraFileStep (scaff_files : List FilePattern)
    (r : ValidationResult) (c : FilePattern) : ValidationResult :=
  if scaff_files.any (fun f => f.path == c.path) then r
  else { r with extra_files := r.extra_files ++ [c.path] }

/-- One iteration of the matching-file item-comparison loop
(`src/validator.rs:143-147`). -/
def compareFileStep (current_files : List FilePattern)
    (r : ValidationResult) (f : FilePattern) : ValidationResult :=
  match hashLookup current_files f.path with
  | some cf => compare_file_items r f cf
  | none => r

/-- The overall-suggestions stage closing `compare_structures`
(`src/validator.rs:150-168`): three conditional pushes onto `suggestions`. -/
def overallSuggestions (scaff : CodePattern) (r : ValidationResult) : ValidationResult :=
  let r4 :=
    if r.missing_files.length > 0 then
      { r with suggestions := r.suggestions ++
          ["Consider running 'scaff generate " ++ scaff.name ++
            "' to create missing files"] }
    else r
  let r5 :=
    if r4.missing_items.length > 0 then
      { r4 with suggestions := r4.suggestions ++
          ["Review missing items and implement them according to your scaff pattern"] }
    else r4
  if r5.extra_files.length > 0 ∧
      r5.extra_files.length > r5.missing_files.length then
    { r5 with suggestions := r5.suggestions ++
        ["Consider updating your scaff pattern to include the new files in your architecture"] }
  else r5

/-- `ArchitectureValidator::compare_structures` (`src/validator.rs:92-171`). -/
def compare_structures (scaff : CodePattern)
    (current_files : List FilePattern) : ValidationResult :=
  let result0 : ValidationResult :=
    { scaff_name := scaff.name, is_valid := true, missing_files := [],
      extra_files := [], missing_items := [], extra_items := [], suggestions := [] }
  let result1 := scaff.files.foldl (missingFileStep current_files) result0
  let result2 := current_files.foldl (extraFileStep scaff.files) result1
  let result3 := scaff.files.foldl (compareFileStep current_files) result2
  overallSuggestions scaff result3

/-! ### The validity invariant of the reconciler -/

/-- `is_valid` mirrors emptiness of the two missing lists at every stage. -/
def validInv (r : ValidationResult) : Prop :=
  r.is_valid = (r.missing_files.isEmpty && r.missing_items.isEmpty)

/-! ### C2: self-comparison -/

/-- A snapshot that lists the same path twice with different contents. -/
def dupPathSnapshot : CodePattern :=
  { name := "dup", description := "", language := "Rust",
    files :=
      [{ path := "src/a", extension := "rs", classes := [], functions := ["f"],
         structs := [], implementations := [] },
       { path := "src/a", extension := "rs", classes := [], functions := [],
         structs := [], implementations := [] }],
    created_at := "" }

/-! ### C4: removing exactly one declaration -/

/-- The four structural categories of a `FilePattern`. -/
inductive ItemCategory where
  | classes
  | functions
  | structs
  | implementations
  deriving Repr, DecidableEq

def categoryItems : ItemCategory → FilePattern → List String
  | .classes, f => f.classes
  | .functions, f => f.functions
  | .structs, f => f.structs
  | .implementations, f => f.implementations

def setCategoryItems : ItemCategory → FilePattern → List String → FilePattern
  | .classes, f, l => { f with classes := l }
  | .functions, f, l => { f with functions := l }
  | .structs, f, l => { f with structs := l }
  | .implementations, f, l => { f with implementations := l }

/-- The `item_type` string used by `compare_file_items` for each category
(`src/validator.rs:185,194,203,212`). -/
def categoryName : ItemCategory → String
  | .classes => "class"
  | .functions => "function"
  | .structs => "struct"
  | .implementations => "implementation"

/-- The file used by the C4 witness. -/
def c4File : FilePattern :=
  { path := "src/a", extension := "rs", classes := [], functions := ["f", "g"],
    structs := [], implementations := [] }

/-! ### The JSON persistence layer (src/pattern.rs) -/

/-- JSON values as far as the snapshot store needs them; serde_json's
string printing/parsing layer is the external collaborator. -/
inductive JVal where
  | null : JVal
  | str : String → JVal
  | arr : List JVal → JVal
  | obj : List (String × JVal) → JVal
  deriving Repr

/-- First-match field lookup in a JSON object. -/
def jlookup (fields : List (String × JVal)) (k : String) : Option JVal :=
  match fields with
  | [] => none
  | (k', v) :: rest => if k' = k then some v else jlookup rest k

def asStr : JVal → Option String
  | .str s => some s
  | _ => none

def decodeStrItems : List JVal → Option (List String)
  | [] => some []
  | x :: rest => do
      let s ← asStr x
      let restS ← decodeStrItems rest
      pure (s :: restS)

def decodeStrList : JVal → Option (List String)
  | .arr xs => decodeStrItems xs
  | _ => none

/-- The derived `Serialize` for `FilePattern`. -/
def encodeFilePattern (f : FilePattern) : JVal :=
  .obj [("path", .str f.path), ("extension", .str f.extension),
        ("classes", .arr (f.classes.map .str)),
        ("functions", .arr (f.functions.map .str)),
        ("structs", .arr (f.structs.map .str)),
        ("implementations", .arr (f.implementations.map .str))]

/-- The derived `Deserialize` for `FilePattern`. -/
def decodeFilePattern : JVal → Option FilePattern
  | .obj fields => do
      let path ← jlookup fields "path" >>= asStr
      let extension ← jlookup fields "extension" >>= asStr
      let classes ← jlookup fields "classes" >>= decodeStrList
      let functions ← jlookup fields "functions" >>= decodeStrList
      let structs ← jlookup fields "structs" >>= decodeStrList
      let implementations ← jlookup fields "implementations" >>= decodeStrList
      pure ⟨path, extension, classes, functions, structs, implementations⟩
  | _ => none

def decodeFileItems : List JVal → Option (List FilePattern)
  | [] => some []
  | x :: rest => do
      let f ← decodeFilePattern x
      let restF ← decodeFileItems rest
      pure (f :: restF)

def decodeFileList : JVal → Option (List FilePattern)
  | .arr xs => decodeFileItems xs
  | _ => none

/-- The derived `Serialize` for `CodePattern`. -/
def encodeCodePattern (p : CodePattern) : JVal :=
  .obj [("name", .str p.name), ("description", .str p.description),
        ("language", .str p.language),
        ("files", .arr (p.files.map encodeFilePattern)),
        ("created_at", .str p.created_at)]

/-- The derived `Deserialize` for `CodePattern`. -/
def decodeCodePattern : JVal → Option CodePattern
  | .obj fields => do
      let nm ← jlookup fields "name" >>= asStr
      let description ← jlookup fields "description" >>= asStr
      let language ← jlookup fields "language" >>= asStr
      let files ← jlookup fields "files" >>= decodeFileList
      let created_at ← jlookup fields "created_at" >>= asStr
      pure ⟨nm, description, language, files, created_at⟩
  | _ => none

/-! ### The scaffs store directory -/

/-- The `scaffs/` directory: raw file name (the string compared against
`"config.json"` by `load_patterns`) to JSON document content. -/
abbrev Store := List (String × JVal)

/-- `fs::write`: whole-file replacement, creating the file if absent. -/
def storeWrite : Store → String → JVal → Store
  | [], f, c => [(f, c)]
  | (g, d) :: rest, f, c =>
      if g = f then (f, c) :: rest else (g, d) :: storeWrite rest f c

def storeRead : Store → String → Option JVal
  | [], _ => none
  | (g, d) :: rest, f => if g = f then some d else storeRead rest f

/-- `Path::extension()` of a file name: the portion after the final `.`,
or none when there is no `.` or when the only `.` begins the name (a
hidden file such as `.json` has NO extension). -/
def fileExtension (s : String) : Option String :=
  let rev := s.data.reverse
  let afterDot := rev.takeWhile (fun c => c != '.')
  if afterDot.length = rev.length then none
  else if rev.drop (afterDot.length + 1) = [] then none
  else some (String.mk afterDot.reverse)

/-- The storage-key normalization of `save_pattern`
(`src/pattern.rs:105`): `name.replace(" ", "_").to_lowercase()`. Since the
replace pattern is the single character " ", the composition acts per
character: a space becomes an underscore, anything else is lowercased.
`Char.toLower` is the ASCII fragment of Rust's Unicode `to_lowercase`,
so theorems about stored keys restrict names to `safeStorageName`
input, where the two coincide. -/
def normalizeName (nm : String) : String :=
  String.mk (nm.data.map (fun ch => if ch = ' ' then '_' else ch.toLower))

/-- Names on which the model's per-character normalization and flat
store coincide with the program: ASCII (Unicode `to_lowercase` agrees
with ASCII lowercasing), no path separator and no NUL (so
`scaffs/<key>.json` is a plain file name inside the store directory). -/
def safeStorageName (s : String) : Bool :=
  s.data.all (fun c => decide (c.toNat < 128 ∧ c ≠ '/' ∧ c.toNat ≠ 0))

/-- The file name a snapshot of the given name is saved to:
`format!("{}.json", key)` (`src/pattern.rs:105-106`). -/
def savedFilename (nm : String) : String := normalizeName nm ++ ".json"

/-- The reserved configuration file `config.json` (`src/pattern.rs:43`). -/
def configFilename : String := "config.json"

/-- `ScaffDirectory::save_pattern` (`src/pattern.rs:98-117`). -/
def savePattern (store : Store) (p : CodePattern) : Store :=
  storeWrite store (savedFilename p.name) (encodeCodePattern p)

/-- `ScaffDirectory::load_patterns` (`src/pattern.rs:119-152`): every
entry whose `Path::extension()` is `json`, other than the file named
`config.json`, is deserialized; entries that fail to deserialize are
logged and skipped. -/
def loadPatterns (store : Store) : List CodePattern :=
  store.filterMap (fun e =>
    if fileExtension e.1 = some "json" ∧ ¬(e.1 = configFilename) then
      decodeCodePattern e.2
    else none)

/-- `ScaffConfig` (`src/pattern.rs:30-33`). -/
structure ScaffConfig where
  default_scaff : Option String
  deriving Repr, DecidableEq

/-- The derived `Serialize` for `ScaffConfig`. -/
def encodeScaffConfig (c : ScaffConfig) : JVal :=
  .obj [("default_scaff", match c.default_scaff with
                          | some s => .str s
                          | none => .null)]

/-- `ScaffConfig::save` (`src/pattern.rs:54-64`). -/
def configSave (c : ScaffConfig) (store : Store) : Store :=
  storeWrite store configFilename (encodeScaffConfig c)

/-- `ScaffConfig::set_default_scaff` (`src/pattern.rs:66-77`): verify the
scaff exists via `load_patterns`; on failure return the error before the
in-memory config or the on-disk store is touched. Returns the call's
result together with the config and store after the call. -/
def set_default_scaff (cfg : ScaffConfig) (store : Store) (scaff_name : String) :
    Except String Unit × ScaffConfig × Store :=
  let patterns := loadPatterns store
  if patterns.any (fun p => p.name == scaff_name) then
    let cfg' : ScaffConfig := { cfg with default_scaff := some scaff_name }
    (Except.ok (), cfg', configSave cfg' store)
  else
    (Except.error ("Scaff '" ++ scaff_name ++ "' not found"), cfg, store)

/-! ### C3: save/load round trip -/

/-- A snapshot whose name collides with the reserved config file. -/
def configNamedSnapshot : CodePattern :=
  { name := "config", description := "", language := "Rust", files := [],
    created_at := "" }

/-! ### The skeleton generator's template dispatch (src/generator.rs) -/

/-- A handlebars template as registered in the engine. The template
source text and the rendering semantics are the external collaborator;
what matters to dispatch is which names are registered. -/
inductive Template where
  | builtinRust
  | builtinJs
  | fromDirectory (stem : String)
  deriving Repr, DecidableEq

/-- The template registry of a `Handlebars` instance. -/
abbrev Registry := List (String × Template)

def getTemplate (reg : Registry) (nm : String) : Option Template :=
  match reg with
  | [] => none
  | (k, t) :: rest => if k = nm then some t else getTemplate rest nm

def registerTemplateString (reg : Registry) (nm : String) (t : Template) : Registry :=
  (nm, t) :: reg

/-- handlebars `render`: fails exactly when the named template is not
registered; a successful render is the chosen template applied to the
data (the produced text being external behaviour). -/
def render (reg : Registry) (nm : String) (data : JVal) :
    Except String (Template × JVal) :=
  match getTemplate reg nm with
  | some t => .ok (t, data)
  | none => .error ("Template not found " ++ nm)

/-- `Path::file_stem` of a relative path, as used for `file_name` in the
template data. -/
def fileStem (p : String) : String :=
  let base := (p.splitOn "/").getLastD p
  let parts := base.splitOn "."
  if parts.length ≤ 1 then base
  else String.intercalate "." parts.dropLast

/-- The `template_data` of `generate_rust_file` (`src/generator.rs:109-116`). -/
def rustTemplateData (file_pattern : FilePattern) (pattern : CodePattern) : JVal :=
  .obj [("file_name", .str (fileStem file_pattern.path)),
        ("structs", .arr (file_pattern.structs.map .str)),
        ("functions", .arr (file_pattern.functions.map .str)),
        ("implementations", .arr (file_pattern.implementations.map .str)),
        ("pattern_name", .str pattern.name),
        ("original_path", .str file_pattern.path)]

/-- The `template_data` of `generate_js_file` (`src/generator.rs:174-181`). -/
def jsTemplateData (file_pattern : FilePattern) (pattern : CodePattern) : JVal :=
  .obj [("file_name", .str (fileStem file_pattern.path)),
        ("classes", .arr (file_pattern.classes.map .str)),
        ("functions", .arr (file_pattern.functions.map .str)),
        ("pattern_name", .str pattern.name),
        ("original_path", .str file_pattern.path),
        ("extension", .str file_pattern.extension)]

/-- `CodeGenerator::generate_rust_file` (`src/generator.rs:103-144`) up to
the file write: resolve the template name, register the built-in default
on a CLONE of the registry that is immediately dropped
(`src/generator.rs:126-127` clones `self.handlebars`, registers
`default_rust_file` there, and discards the clone), then render from the
ORIGINAL registry. -/
def generate_rust_file (reg : Registry) (file_pattern : FilePattern)
    (pattern : CodePattern) : Except String (Template × JVal) :=
  let template_data := rustTemplateData file_pattern pattern
  let template_name :=
    if (getTemplate reg "rust_file").isSome then "rust_file" else "default_rust_file"
  let _cloned :=
    if template_name = "default_rust_file" then
      registerTemplateString reg "default_rust_file" Template.builtinRust
    else reg
  render reg template_name template_data

/-- `CodeGenerator::generate_js_file` (`src/generator.rs:168-209`) up to
the file write; same clone-and-drop slip at `src/generator.rs:191-192`. -/
def generate_js_file (reg : Registry) (file_pattern : FilePattern)
    (pattern : CodePattern) : Except String (Template × JVal) :=
  let template_data := jsTemplateData file_pattern pattern
  let template_name :=
    if (getTemplate reg "js_file").isSome then "js_file" else "default_js_file"
  let _cloned :=
    if template_name = "default_js_file" then
      registerTemplateString reg "default_js_file" Template.builtinJs
    else reg
  render reg template_name template_data

/-- The template registry of `CodeGenerator::new()` when no `templates/`
directory exists (the repository ships none): string helpers are
registered but no templates are. -/
def newGeneratorRegistry : Registry := []

/-! ### The scanner's language dispatch (src/scanner.rs) -/

/-- `LanguageConfig` from `src/scanner.rs:8-13`. -/
structure LanguageConfig where
  name : String
  extensions : List String
  display_name : String
  deriving Repr, DecidableEq

/-- `SUPPORTED_LANGUAGES` from `src/scanner.rs:16-62`. -/
def SUPPORTED_LANGUAGES : List LanguageConfig :=
  [⟨"rust", ["rs"], "Rust"⟩,
   ⟨"javascript", ["js", "jsx"], "JavaScript"⟩,
   ⟨"typescript", ["ts", "tsx"], "TypeScript"⟩,
   ⟨"python", ["py", "pyi"], "Python"⟩,
   ⟨"java", ["java"], "Java"⟩,
   ⟨"go", ["go"], "Go"⟩,
   ⟨"json", ["json"], "JSON"⟩,
   ⟨"html", ["html", "htm"], "HTML"⟩,
   ⟨"css", ["css"], "CSS"⟩]

/-- The grammar-selection match of `scan_language_files_in_dir`
(`src/scanner.rs:82-96`): the nine supported ids select a tree-sitter
grammar (represented by its crate name); any other id logs an error and
the function returns an empty vector. -/
def languageGrammar (language : String) : Option String :=
  if language = "rust" then some "tree_sitter_rust"
  else if language = "javascript" then some "tree_sitter_javascript"
  else if language = "typescript" then some "tree_sitter_typescript"
  else if language = "python" then some "tree_sitter_python"
  else if language = "java" then some "tree_sitter_java"
  else if language = "go" then some "tree_sitter_go"
  else if language = "json" then some "tree_sitter_json"
  else if language = "html" then some "tree_sitter_html"
  else if language = "css" then some "tree_sitter_css"
  else none

/-- `scan_language_files_in_dir` (`src/scanner.rs:77-107`). The
filesystem walk plus per-file parsing (`scan_dir_recursive`) is the
external collaborator, passed as a function; grammar-loading failure,
which also returns empty, is folded into it. -/
def scan_language_files_in_dir
    (scanDirRecursive : String → String → List FilePattern)
    (dir language : String) : List FilePattern :=
  match languageGrammar language with
  | none => []
  | some _ => scanDirRecursive dir language

/-! ### General lemmas about the folds of the reconciler -/

theorem foldl_inv {α β : Type _} (P : β → Prop) (step : β → α → β)
    (hstep : ∀ b a, P b → P (step b a)) :
    ∀ (l : List α) (init : β), P init → P (l.foldl step init) := by
  intro l
  induction l with
  | nil => intro init h; exact h
  | cons a t ih => intro init h; exact ih _ (hstep _ _ h)

theorem foldl_eq_of_id {α β : Type _} (step : β → α → β) (l : List α)
    (h : ∀ b a, a ∈ l → step b a = b) : ∀ init : β, l.foldl step init = init := by
  induction l with
  | nil => intro init; rfl
  | cons x xs ih =>
      intro init
      rw [List.foldl_cons, h init x (by simp)]
      exact ih (fun b a ha => h b a (by simp [ha])) init

theorem foldl_middle {α β : Type _} (step : β → α → β) (pre post : List α) (a : α)
    (hpre : ∀ b x, x ∈ pre → step b x = b) (hpost : ∀ b x, x ∈ post → step b x = b) :
    ∀ init : β, (pre ++ a :: post).foldl step init = step init a := by
  intro init
  rw [List.foldl_append, foldl_eq_of_id _ _ hpre, List.foldl_cons,
    foldl_eq_of_id _ _ hpost]

theorem isEmpty_append_singleton {α : Type _} (l : List α) (x : α) :
    (l ++ [x]).isEmpty = false := by
  cases l <;> rfl

/-! ### Closed form of compare_items -/

theorem foldl_missingItemStep (p t : String) (cur : List String) :
    ∀ (s : List String) (r : ValidationResult),
      s.foldl (missingItemStep p t cur) r =
        { r with
          missing_items := r.missing_items ++
            (s.filter (fun x => decide (x ∉ cur))).map (fun x => ⟨p, t, x⟩),
          is_valid := r.is_valid && s.all (fun x => decide (x ∈ cur)) } := by
  intro s
  induction s with
  | nil => intro r; simp
  | cons x xs ih =>
      intro r
      by_cases hx : x ∈ cur
      · rw [List.foldl_cons, missingItemStep, if_pos hx, ih]
        simp [hx]
      · rw [List.foldl_cons, missingItemStep, if_neg hx, ih]
        simp [hx]

theorem foldl_extraItemStep (p t : String) (sc : List String) :
    ∀ (c : List String) (r : ValidationResult),
      c.foldl (extraItemStep p t sc) r =
        { r with
          extra_items := r.extra_items ++
            (c.filter (fun x => decide (x ∉ sc))).map (fun x => ⟨p, t, x⟩) } := by
  intro c
  induction c with
  | nil => intro r; simp
  | cons x xs ih =>
      intro r
      by_cases hx : x ∈ sc
      · rw [List.foldl_cons, extraItemStep, if_pos hx, ih]
        simp [hx]
      · rw [List.foldl_cons, extraItemStep, if_neg hx, ih]
        simp [hx]

theorem compare_items_eq (r : ValidationResult) (p t : String)
    (s c : List String) :
    compare_items r p t s c =
      { r with
        missing_items := r.missing_items ++
          (s.filter (fun x => decide (x ∉ c))).map (fun x => ⟨p, t, x⟩),
        extra_items := r.extra_items ++
          (c.filter (fun x => decide (x ∉ s))).map (fun x => ⟨p, t, x⟩),
        is_valid := r.is_valid && s.all (fun x => decide (x ∈ c)) } := by
  unfold compare_items
  rw [foldl_missingItemStep, foldl_extraItemStep]

theorem filter_not_mem_self (l : List String) :
    l.filter (fun x => decide (x ∉ l)) = [] :=
  List.filter_eq_nil_iff.mpr (fun a ha => by simp [ha])

theorem all_mem_self (l : List String) :
    l.all (fun x => decide (x ∈ l)) = true :=
  List.all_eq_true.mpr (fun x hx => by simp [hx])

theorem compare_items_self (r : ValidationResult) (p t : String) (l : List String) :
    compare_items r p t l l = r := by
  rw [compare_items_eq, filter_not_mem_self, all_mem_self]
  simp

theorem compare_file_items_self (r : ValidationResult) (f : FilePattern) :
    compare_file_items r f f = r := by
  unfold compare_file_items
  simp only [compare_items_self]

theorem isEmpty_map {α β : Type _} (f : α → β) (l : List α) :
    (l.map f).isEmpty = l.isEmpty := by
  cases l <;> rfl

theorem all_eq_isEmpty_filter (s c : List String) :
    s.all (fun x => decide (x ∈ c)) = (s.filter (fun x => decide (x ∉ c))).isEmpty := by
  induction s with
  | nil => rfl
  | cons x xs ih =>
      by_cases hx : x ∈ c
      · simp [hx, ih]
      · simp [hx]

theorem validInv_compare_items (r : ValidationResult) (p t : String)
    (s c : List String) (h : validInv r) : validInv (compare_items r p t s c) := by
  rw [compare_items_eq]
  unfold validInv at h ⊢
  simp only [h, all_eq_isEmpty_filter]
  cases hmf : r.missing_files.isEmpty <;>
    cases hmi : r.missing_items.isEmpty <;>
      simp_all [List.isEmpty_iff, List.filter_eq_nil_iff, isEmpty_map]

theorem validInv_compare_file_items (r : ValidationResult)
    (f g : FilePattern) (h : validInv r) : validInv (compare_file_items r f g) := by
  unfold compare_file_items
  exact validInv_compare_items _ _ _ _ _
    (validInv_compare_items _ _ _ _ _
      (validInv_compare_items _ _ _ _ _ (validInv_compare_items _ _ _ _ _ h)))

theorem validInv_missingFileStep (cur : List FilePattern)
    (r : ValidationResult) (f : FilePattern) (h : validInv r) :
    validInv (missingFileStep cur r f) := by
  unfold missingFileStep
  split
  · exact h
  · unfold validInv
    simp [isEmpty_append_singleton]

theorem validInv_extraFileStep (sc : List FilePattern)
    (r : ValidationResult) (c : FilePattern) (h : validInv r) :
    validInv (extraFileStep sc r c) := by
  unfold extraFileStep
  split
  · exact h
  · exact h

theorem validInv_compareFileStep (cur : List FilePattern)
    (r : ValidationResult) (f : FilePattern) (h : validInv r) :
    validInv (compareFileStep cur r f) := by
  unfold compareFileStep
  split
  · exact validInv_compare_file_items _ _ _ h
  · exact h

theorem overallSuggestions_is_valid (scaff : CodePattern) (r : ValidationResult) :
    (overallSuggestions scaff r).is_valid = r.is_valid := by
  unfold overallSuggestions
  dsimp only
  repeat' split
  all_goals rfl

theorem overallSuggestions_missing_files (scaff : CodePattern) (r : ValidationResult) :
    (overallSuggestions scaff r).missing_files = r.missing_files := by
  unfold overallSuggestions
  dsimp only
  repeat' split
  all_goals rfl

theorem overallSuggestions_missing_items (scaff : CodePattern) (r : ValidationResult) :
    (overallSuggestions scaff r).missing_items = r.missing_items := by
  unfold overallSuggestions
  dsimp only
  repeat' split
  all_goals rfl

theorem overallSuggestions_extra_files (scaff : CodePattern) (r : ValidationResult) :
    (overallSuggestions scaff r).extra_files = r.extra_files := by
  unfold overallSuggestions
  dsimp only
  repeat' split
  all_goals rfl

theorem overallSuggestions_extra_items (scaff : CodePattern) (r : ValidationResult) :
    (overallSuggestions scaff r).extra_items = r.extra_items := by
  unfold overallSuggestions
  dsimp only
  repeat' split
  all_goals rfl

theorem validInv_compare_structures (scaff : CodePattern)
    (current_files : List FilePattern) :
    validInv (compare_structures scaff current_files) := by
  unfold compare_structures
  have h0 : validInv
      { scaff_name := scaff.name, is_valid := true, missing_files := [],
        extra_files := [], missing_items := [], extra_items := [],
        suggestions := ([] : List String) } := rfl
  have h1 := foldl_inv validInv (missingFileStep current_files)
    (fun b a hb => validInv_missingFileStep _ _ _ hb) scaff.files _ h0
  have h2 := foldl_inv validInv (extraFileStep scaff.files)
    (fun b a hb => validInv_extraFileStep _ _ _ hb) current_files _ h1
  have h3 := foldl_inv validInv (compareFileStep current_files)
    (fun b a hb => validInv_compareFileStep _ _ _ hb) scaff.files _ h2
  unfold validInv at h3 ⊢
  rw [overallSuggestions_is_valid, overallSuggestions_missing_files,
    overallSuggestions_missing_items]
  exact h3

/-- C1: for every snapshot and current file list, the `ValidationResult`
of `compare_structures` has `is_valid = true` exactly when both
`missing_files` and `missing_items` are empty; extras never invalidate. -/
theorem compare_structures_is_valid_iff (scaff : CodePattern)
    (current_files : List FilePattern) :
    (compare_structures scaff current_files).is_valid = true ↔
      ((compare_structures scaff current_files).missing_files = [] ∧
        (compare_structures scaff current_files).missing_items = []) := by
  have h := validInv_compare_structures scaff current_files
  unfold validInv at h
  rw [h, Bool.and_eq_true, List.isEmpty_iff, List.isEmpty_iff]

/-! ### hashLookup lemmas -/

theorem hashLookup_acc_of_no_match (p : String) :
    ∀ (l : List FilePattern) (acc : Option FilePattern),
      (∀ g ∈ l, g.path ≠ p) →
      l.foldl (fun acc f => if f.path = p then some f else acc) acc = acc := by
  intro l
  induction l with
  | nil => intro acc _; rfl
  | cons x xs ih =>
      intro acc h
      rw [List.foldl_cons, if_neg (h x (by simp))]
      exact ih acc (fun g hg => h g (by simp [hg]))

theorem hashLookup_append (pre post : List FilePattern) (f : FilePattern)
    (hpre : ∀ g ∈ pre, g.path ≠ f.path) (hpost : ∀ g ∈ post, g.path ≠ f.path) :
    hashLookup (pre ++ f :: post) f.path = some f := by
  unfold hashLookup
  rw [List.foldl_append, hashLookup_acc_of_no_match _ pre none hpre,
    List.foldl_cons, if_pos rfl]
  exact hashLookup_acc_of_no_match _ post _ hpost

theorem hashLookup_self_of_nodup (l : List FilePattern)
    (hl : (l.map (fun f => f.path)).Nodup) (f : FilePattern) (hf : f ∈ l) :
    hashLookup l f.path = some f := by
  obtain ⟨pre, post, rfl⟩ := List.append_of_mem hf
  rw [List.map_append, List.map_cons, List.nodup_middle] at hl
  have h2 := (List.nodup_cons.mp hl).1
  rw [List.mem_append] at h2
  push_neg at h2
  apply hashLookup_append
  · intro g hg hgp
    exact h2.1 (hgp ▸ List.mem_map_of_mem _ hg)
  · intro g hg hgp
    exact h2.2 (hgp ▸ List.mem_map_of_mem _ hg)

/-! ### Identity of the file passes when every path is present -/

theorem missingFilePass_id (sfiles current : List FilePattern)
    (h : ∀ g ∈ sfiles, g.path ∈ current.map (fun f => f.path)) :
    ∀ r : ValidationResult, sfiles.foldl (missingFileStep current) r = r :=
  foldl_eq_of_id _ _ (fun b g hg => by
    have hc : (current.any fun c => c.path == g.path) = true := by
      rw [List.any_eq_true]
      obtain ⟨c, hcmem, hcp⟩ := List.mem_map.mp (h g hg)
      exact ⟨c, hcmem, by simp [hcp]⟩
    simp [missingFileStep, hc])

theorem extraFilePass_id (sfiles current : List FilePattern)
    (h : ∀ g ∈ current, g.path ∈ sfiles.map (fun f => f.path)) :
    ∀ r : ValidationResult, current.foldl (extraFileStep sfiles) r = r :=
  foldl_eq_of_id _ _ (fun b g hg => by
    have hc : (sfiles.any fun f => f.path == g.path) = true := by
      rw [List.any_eq_true]
      obtain ⟨c, hcmem, hcp⟩ := List.mem_map.mp (h g hg)
      exact ⟨c, hcmem, by simp [hcp]⟩
    simp [extraFileStep, hc])

/-- C2 counterexample: for a snapshot whose `files` repeat a path with
different category contents, `compare_structures(S, S.files)` is NOT
valid: the path-keyed map keeps only the last file under a path, so the
first file's declarations are reported missing. -/
theorem compare_structures_self_counterexample :
    (compare_structures dupPathSnapshot dupPathSnapshot.files).is_valid = false := by
  decide

/-- C2 (amended): for every snapshot whose file paths are pairwise
distinct, comparing it against its own file list yields `is_valid = true`
and empty `missing_files` and `missing_items`. -/
theorem compare_structures_self_valid (S : CodePattern)
    (h : (S.files.map (fun f => f.path)).Nodup) :
    (compare_structures S S.files).is_valid = true ∧
      (compare_structures S S.files).missing_files = [] ∧
      (compare_structures S S.files).missing_items = [] := by
  have hself : ∀ g ∈ S.files, g.path ∈ S.files.map (fun f => f.path) :=
    fun g hg => List.mem_map_of_mem _ hg
  have hcmp : ∀ (b : ValidationResult) (f : FilePattern), f ∈ S.files →
      compareFileStep S.files b f = b := by
    intro b f hf
    unfold compareFileStep
    rw [hashLookup_self_of_nodup S.files h f hf]
    exact compare_file_items_self b f
  unfold compare_structures
  dsimp only
  rw [missingFilePass_id _ _ hself, extraFilePass_id _ _ hself,
    foldl_eq_of_id _ _ hcmp]
  refine ⟨?_, ?_, ?_⟩
  · rw [overallSuggestions_is_valid]
  · rw [overallSuggestions_missing_files]
  · rw [overallSuggestions_missing_items]

theorem compare_structures_self_valid_witness :
    (([{ path := "src/a", extension := "rs", classes := ["C"], functions := ["f"],
         structs := [], implementations := [] },
       { path := "src/b", extension := "rs", classes := [], functions := ["g"],
         structs := ["S"], implementations := [] }] :
        List FilePattern).map (fun f => f.path)).Nodup ∧
    ((compare_structures
        { name := "w", description := "d", language := "Rust",
          files :=
            [{ path := "src/a", extension := "rs", classes := ["C"], functions := ["f"],
               structs := [], implementations := [] },
             { path := "src/b", extension := "rs", classes := [], functions := ["g"],
               structs := ["S"], implementations := [] }],
          created_at := "now" }
        [{ path := "src/a", extension := "rs", classes := ["C"], functions := ["f"],
           structs := [], implementations := [] },
         { path := "src/b", extension := "rs", classes := [], functions := ["g"],
           structs := ["S"], implementations := [] }]).is_valid = true ∧
      (compare_structures
        { name := "w", description := "d", language := "Rust",
          files :=
            [{ path := "src/a", extension := "rs", classes := ["C"], functions := ["f"],
               structs := [], implementations := [] },
             { path := "src/b", extension := "rs", classes := [], functions := ["g"],
               structs := ["S"], implementations := [] }],
          created_at := "now" }
        [{ path := "src/a", extension := "rs", classes := ["C"], functions := ["f"],
           structs := [], implementations := [] },
         { path := "src/b", extension := "rs", classes := [], functions := ["g"],
           structs := ["S"], implementations := [] }]).missing_files = [] ∧
      (compare_structures
        { name := "w", description := "d", language := "Rust",
          files :=
            [{ path := "src/a", extension := "rs", classes := ["C"], functions := ["f"],
               structs := [], implementations := [] },
             { path := "src/b", extension := "rs", classes := [], functions := ["g"],
               structs := ["S"], implementations := [] }],
          created_at := "now" }
        [{ path := "src/a", extension := "rs", classes := ["C"], functions := ["f"],
           structs := [], implementations := [] },
         { path := "src/b", extension := "rs", classes := [], functions := ["g"],
           structs := ["S"], implementations := [] }]).missing_items = []) :=
  ⟨by decide, compare_structures_self_valid _ (by decide)⟩

/-! ### C5: compare_items and sets -/

/-- C5 counterexample: changing the duplicate occurrence count of a name
in the snapshot-side category list changes the `ValidationResult`:
a name occurring twice yields two copies of the missing issue, so the
result is not invariant under multiplicity changes. -/
theorem compare_items_multiset_counterexample :
    compare_items ⟨"t", true, [], [], [], [], []⟩ "src/a" "function" ["f", "f"] [] ≠
      compare_items ⟨"t", true, [], [], [], [], []⟩ "src/a" "function" ["f"] [] := by
  decide

/-- C5 (amended): `compare_items` is a set comparison up to order and
multiplicity of the result lists: an issue is reported missing exactly
when its name occurs in the snapshot list and not in the current list
(dually for extras), and the validity flag depends only on set
containment — but the result lists themselves repeat one issue per
duplicate occurrence, in input order. -/
theorem compare_items_set_semantics (r : ValidationResult) (p t : String)
    (s c : List String) (issue : ValidationIssue) :
    (issue ∈ (compare_items r p t s c).missing_items ↔
      issue ∈ r.missing_items ∨
        (issue.file_path = p ∧ issue.item_type = t ∧
          issue.item_name ∈ s ∧ issue.item_name ∉ c)) ∧
    (issue ∈ (compare_items r p t s c).extra_items ↔
      issue ∈ r.extra_items ∨
        (issue.file_path = p ∧ issue.item_type = t ∧
          issue.item_name ∈ c ∧ issue.item_name ∉ s)) ∧
    (compare_items r p t s c).is_valid =
      (r.is_valid && s.all (fun x => decide (x ∈ c))) := by
  obtain ⟨fp, it, nm⟩ := issue
  rw [compare_items_eq]
  refine ⟨?_, ?_, rfl⟩ <;>
  · simp only [List.mem_append, List.mem_map, List.mem_filter]
    constructor
    · rintro (h | ⟨x, ⟨hx, hnx⟩, hmk⟩)
      · exact Or.inl h
      · cases hmk
        simp_all
    · rintro (h | ⟨hfp, hit, hnm, hnnm⟩)
      · exact Or.inl h
      · subst hfp; subst hit
        exact Or.inr ⟨nm, ⟨hnm, by simp [hnnm]⟩, rfl⟩

theorem setCategoryItems_path (cat : ItemCategory) (f : FilePattern) (l : List String) :
    (setCategoryItems cat f l).path = f.path := by
  cases cat <;> rfl

theorem filter_count_one (l : List String) (n : String) (h : l.count n = 1) :
    l.filter (fun x => decide (x ∉ l.erase n)) = [n] := by
  have hne : n ∉ l.erase n :=
    List.count_eq_zero.mp (by rw [List.count_erase_self, h])
  have h1 : l.filter (fun x => decide (x ∉ l.erase n)) = l.filter (fun x => x == n) := by
    apply List.filter_congr
    intro x hx
    by_cases hxn : x = n
    · subst hxn
      simp [hne]
    · simp [hxn, (List.mem_erase_of_ne hxn).mpr hx]
  rw [h1, List.filter_beq, h]
  rfl

theorem filter_erase_sub (l : List String) (n : String) :
    (l.erase n).filter (fun x => decide (x ∉ l)) = [] :=
  List.filter_eq_nil_iff.mpr (fun a ha => by simp [List.mem_of_mem_erase ha])

theorem all_erase_false (l : List String) (n : String) (h : l.count n = 1) :
    l.all (fun x => decide (x ∈ l.erase n)) = false := by
  have hmem : n ∈ l := by
    rw [← List.count_pos_iff, h]
    exact Nat.one_pos
  have hne : n ∉ l.erase n :=
    List.count_eq_zero.mp (by rw [List.count_erase_self, h])
  rw [Bool.eq_false_iff]
  intro hall
  have := List.all_eq_true.mp hall n hmem
  simp_all

theorem compare_file_items_erase (r : ValidationResult) (f : FilePattern)
    (cat : ItemCategory) (n : String) (hcount : (categoryItems cat f).count n = 1) :
    compare_file_items r f (setCategoryItems cat f ((categoryItems cat f).erase n)) =
      { r with
        missing_items := r.missing_items ++ [⟨f.path, categoryName cat, n⟩],
        is_valid := false } := by
  cases cat <;>
    · simp only [categoryItems, setCategoryItems, categoryName] at hcount ⊢
      unfold compare_file_items
      dsimp only
      rw [compare_items_self, compare_items_self, compare_items_self,
        compare_items_eq, filter_count_one _ _ hcount, filter_erase_sub,
        all_erase_false _ _ hcount]
      simp

/-- C4 (amended): if the snapshot's file paths are pairwise distinct and
the declaration name occurs exactly once in the chosen category of the
chosen file, then removing that one occurrence and comparing yields
exactly one missing item — with that category, name and file path — and
`is_valid = false`. (Without those two side conditions the claim fails:
a duplicated path or a duplicated name produces extra missing items.) -/
theorem compare_structures_remove_one (nm desc lang created : String)
    (pre post : List FilePattern) (f : FilePattern) (cat : ItemCategory) (n : String)
    (hnodup : ((pre ++ f :: post).map (fun g => g.path)).Nodup)
    (hcount : (categoryItems cat f).count n = 1) :
    (compare_structures ⟨nm, desc, lang, pre ++ f :: post, created⟩
        (pre ++ setCategoryItems cat f ((categoryItems cat f).erase n) :: post)).missing_items =
      [⟨f.path, categoryName cat, n⟩] ∧
    (compare_structures ⟨nm, desc, lang, pre ++ f :: post, created⟩
        (pre ++ setCategoryItems cat f ((categoryItems cat f).erase n) :: post)).is_valid =
      false := by
  set f' := setCategoryItems cat f ((categoryItems cat f).erase n) with hf'
  set current := pre ++ f' :: post with hcur
  have hfp : f'.path = f.path := setCategoryItems_path cat f _
  have hpaths : current.map (fun g => g.path) = (pre ++ f :: post).map (fun g => g.path) := by
    simp [hcur, hfp]
  have hnodup' : (current.map (fun g => g.path)).Nodup := by
    rw [hpaths]; exact hnodup
  have h1 : ∀ g ∈ pre ++ f :: post, g.path ∈ current.map (fun g => g.path) := by
    intro g hg; rw [hpaths]; exact List.mem_map_of_mem _ hg
  have h2 : ∀ g ∈ current, g.path ∈ (pre ++ f :: post).map (fun g => g.path) := by
    intro g hg; rw [← hpaths]; exact List.mem_map_of_mem _ hg
  have hsep : f.path ∉ pre.map (fun g => g.path) ++ post.map (fun g => g.path) := by
    have h3 := hnodup
    rw [List.map_append, List.map_cons, List.nodup_middle] at h3
    exact (List.nodup_cons.mp h3).1
  have hmem_pre : ∀ (b : ValidationResult) (g : FilePattern), g ∈ pre →
      compareFileStep current b g = b := by
    intro b g hg
    have hgc : g ∈ current := by rw [hcur]; exact List.mem_append_left _ hg
    unfold compareFileStep
    rw [hashLookup_self_of_nodup current hnodup' g hgc]
    exact compare_file_items_self b g
  have hmem_post : ∀ (b : ValidationResult) (g : FilePattern), g ∈ post →
      compareFileStep current b g = b := by
    intro b g hg
    have hgc : g ∈ current := by
      rw [hcur]; exact List.mem_append_right _ (List.mem_cons_of_mem _ hg)
    unfold compareFileStep
    rw [hashLookup_self_of_nodup current hnodup' g hgc]
    exact compare_file_items_self b g
  have hlook : hashLookup current f.path = some f' := by
    rw [List.mem_append] at hsep
    push_neg at hsep
    have := hashLookup_append pre post f'
      (fun g hg hgp => hsep.1 ((hfp ▸ hgp) ▸ List.mem_map_of_mem _ hg))
      (fun g hg hgp => hsep.2 ((hfp ▸ hgp) ▸ List.mem_map_of_mem _ hg))
    rw [hfp] at this
    exact this
  have hmid : ∀ b : ValidationResult, compareFileStep current b f =
      { b with
        missing_items := b.missing_items ++ [⟨f.path, categoryName cat, n⟩],
        is_valid := false } := by
    intro b
    unfold compareFileStep
    rw [hlook]
    exact compare_file_items_erase b f cat n hcount
  unfold compare_structures
  dsimp only
  rw [missingFilePass_id _ _ h1, extraFilePass_id _ _ h2,
    foldl_middle _ _ _ _ hmem_pre hmem_post, hmid]
  constructor
  · rw [overallSuggestions_missing_items]
    rfl
  · rw [overallSuggestions_is_valid]

theorem compare_structures_remove_one_witness :
    (((([] ++ c4File :: [] : List FilePattern)).map (fun g => g.path)).Nodup ∧
      (categoryItems .functions c4File).count "g" = 1) ∧
    (compare_structures ⟨"api", "", "Rust", [] ++ c4File :: [], ""⟩
        ([] ++ setCategoryItems .functions c4File
          ((categoryItems .functions c4File).erase "g") :: [])).missing_items =
      [⟨c4File.path, categoryName .functions, "g"⟩] ∧
    (compare_structures ⟨"api", "", "Rust", [] ++ c4File :: [], ""⟩
        ([] ++ setCategoryItems .functions c4File
          ((categoryItems .functions c4File).erase "g") :: [])).is_valid = false :=
  ⟨⟨by decide, by decide⟩,
    compare_structures_remove_one "api" "" "Rust" "" [] [] c4File .functions "g"
      (by decide) (by decide)⟩

theorem decodeStrItems_map (l : List String) :
    decodeStrItems (l.map JVal.str) = some l := by
  induction l with
  | nil => rfl
  | cons x xs ih => simp [decodeStrItems, ih, asStr]

theorem decodeStrList_encode (l : List String) :
    decodeStrList (.arr (l.map .str)) = some l := by
  simp [decodeStrList, decodeStrItems_map]

theorem decodeFilePattern_encode (f : FilePattern) :
    decodeFilePattern (encodeFilePattern f) = some f := by
  simp [decodeFilePattern, encodeFilePattern, jlookup, decodeStrList_encode, asStr]

theorem decodeFileItems_map (fs : List FilePattern) :
    decodeFileItems (fs.map encodeFilePattern) = some fs := by
  induction fs with
  | nil => rfl
  | cons f rest ih => simp [decodeFileItems, decodeFilePattern_encode, ih]

theorem decodeCodePattern_encode (p : CodePattern) :
    decodeCodePattern (encodeCodePattern p) = some p := by
  simp [decodeCodePattern, encodeCodePattern, jlookup, asStr, decodeFileList,
    decodeFileItems_map]

/-- A file name built as `x ++ ".json"` has `Path::extension()` `json`
exactly because `x` is nonempty; for `x = ""` the written file is the
hidden `.json`, which has no extension. -/
theorem fileExtension_append_json (x : String) (h : x ≠ "") :
    fileExtension (x ++ ".json") = some "json" := by
  have hx : x.data.reverse ≠ [] := by
    intro he
    apply h
    have hdnil : x.data = [] := List.reverse_eq_nil_iff.mp he
    cases x
    simp_all
  have hd : (x ++ ".json").data.reverse
      = 'n' :: 'o' :: 's' :: 'j' :: '.' :: x.data.reverse := by
    rw [String.data_append, List.reverse_append]
    rfl
  simp only [fileExtension]
  rw [hd]
  have ht : ('n' :: 'o' :: 's' :: 'j' :: '.' :: x.data.reverse).takeWhile
      (fun c => c != '.') = ['n', 'o', 's', 'j'] := rfl
  rw [ht]
  have hlen : (['n', 'o', 's', 'j'] : List Char).length ≠
      ('n' :: 'o' :: 's' :: 'j' :: '.' :: x.data.reverse).length := by
    simp
  rw [if_neg hlen]
  have hdrop : ('n' :: 'o' :: 's' :: 'j' :: '.' :: x.data.reverse).drop
      ((['n', 'o', 's', 'j'] : List Char).length + 1) = x.data.reverse := rfl
  rw [hdrop, if_neg hx]
  rfl

theorem append_json_inj (x y : String) (h : x ++ ".json" = y ++ ".json") :
    x = y := by
  have hd : x.data ++ (".json" : String).data = y.data ++ (".json" : String).data := by
    rw [← String.data_append, ← String.data_append, h]
  have := List.append_cancel_right hd
  cases x
  cases y
  simp_all

/-- C3 counterexample: a snapshot named "config" is stored as the
reserved `config.json`, which `load_patterns` always skips, so saving it
into an empty store and loading returns the empty list rather than the
snapshot itself. -/
theorem save_load_roundtrip_counterexample :
    loadPatterns (savePattern [] configNamedSnapshot) = [] ∧
      loadPatterns (savePattern [] configNamedSnapshot) ≠ [configNamedSnapshot] := by
  have h0 : loadPatterns (savePattern [] configNamedSnapshot) = [] := by decide
  refine ⟨h0, ?_⟩
  rw [h0]
  simp

/-- C3 (amended): for every snapshot whose name is a safe storage name
(ASCII, no path separator, no NUL — where the model's normalization and
flat store coincide with the program) and whose normalized name is
neither empty nor the reserved stem "config", saving it into an empty
store and then loading returns exactly that one snapshot. An empty
normalized name is excluded because the written file `.json` has no
extension and is skipped by `load_patterns`. -/
theorem save_load_roundtrip (S : CodePattern)
    (_hsafe : safeStorageName S.name = true)
    (hne : normalizeName S.name ≠ "")
    (h : normalizeName S.name ≠ "config") :
    loadPatterns (savePattern [] S) = [S] := by
  show loadPatterns [(savedFilename S.name, encodeCodePattern S)] = [S]
  unfold loadPatterns
  rw [List.filterMap_cons]
  have hcond : fileExtension (savedFilename S.name) = some "json" ∧
      ¬(savedFilename S.name = configFilename) := by
    refine ⟨fileExtension_append_json _ hne, ?_⟩
    intro he
    apply h
    apply append_json_inj
    calc normalizeName S.name ++ ".json" = configFilename := he
      _ = "config" ++ ".json" := rfl
  rw [if_pos hcond, decodeCodePattern_encode]
  rfl

theorem save_load_roundtrip_witness :
    (safeStorageName "My App" = true ∧ normalizeName "My App" ≠ "" ∧
      normalizeName "My App" ≠ "config") ∧
      loadPatterns (savePattern []
        { name := "My App", description := "demo", language := "Rust",
          files := [{ path := "src/m.rs", extension := "rs", classes := [],
                      functions := ["run"], structs := ["M"],
                      implementations := ["M"] }],
          created_at := "2024" }) =
        [{ name := "My App", description := "demo", language := "Rust",
           files := [{ path := "src/m.rs", extension := "rs", classes := [],
                       functions := ["run"], structs := ["M"],
                       implementations := ["M"] }],
           created_at := "2024" }] :=
  ⟨⟨by decide, by decide, by decide⟩,
    save_load_roundtrip _ (by decide) (by decide) (by decide)⟩

/-! ### C6: the name as storage key -/

theorem storeRead_write_self : ∀ (s : Store) (f : String) (c : JVal),
    storeRead (storeWrite s f c) f = some c := by
  intro s
  induction s with
  | nil => intro f c; simp [storeWrite, storeRead]
  | cons e rest ih =>
      intro f c
      obtain ⟨g, d⟩ := e
      by_cases hg : g = f
      · simp [storeWrite, hg, storeRead]
      · simp [storeWrite, hg, storeRead, ih]

theorem storeRead_write_ne : ∀ (s : Store) (f g : String) (c : JVal),
    f ≠ g → storeRead (storeWrite s f c) g = storeRead s g := by
  intro s
  induction s with
  | nil => intro f g c h; simp [storeWrite, storeRead, h]
  | cons e rest ih =>
      intro f g c h
      obtain ⟨k, d⟩ := e
      by_cases hk : k = f
      · subst hk
        simp only [storeWrite, if_pos rfl]
        simp [storeRead, h]
      · simp only [storeWrite, if_neg hk]
        simp only [storeRead]
        by_cases hkg : k = g
        · simp [hkg]
        · simp [hkg, ih _ _ _ h]

/-- C6 counterexample: the distinct names "A" and "a" normalize to the
same storage key, so saving the two snapshots writes one and the same
file, and the second save overwrites the first: loading afterwards
returns only the second snapshot. -/
theorem save_distinct_names_counterexample :
    ("A" : String) ≠ "a" ∧
      savedFilename "A" = savedFilename "a" ∧
      loadPatterns (savePattern (savePattern []
        { name := "A", description := "first", language := "Rust", files := [],
          created_at := "" })
        { name := "a", description := "second", language := "Rust", files := [],
          created_at := "" }) =
        [{ name := "a", description := "second", language := "Rust", files := [],
           created_at := "" }] := by
  refine ⟨by decide, by decide, by decide⟩

/-- C6 (amended): for snapshots whose names are safe storage names
(ASCII, no path separator, no NUL — where the model's per-character
normalization coincides with Rust's Unicode `to_lowercase`), the
NORMALIZED name is the storage key. Snapshots whose names normalize
differently are kept in two distinct files and saving the second leaves
the first snapshot's file unchanged, while a save always (re)writes its
own key's file — so only a name with the same normalization overwrites. -/
theorem savePattern_key_behavior (store : Store) (p1 p2 : CodePattern)
    (_hs1 : safeStorageName p1.name = true)
    (_hs2 : safeStorageName p2.name = true)
    (h : normalizeName p1.name ≠ normalizeName p2.name) :
    savedFilename p1.name ≠ savedFilename p2.name ∧
      storeRead (savePattern (savePattern store p1) p2) (savedFilename p1.name) =
        storeRead (savePattern store p1) (savedFilename p1.name) ∧
      storeRead (savePattern store p1) (savedFilename p1.name) =
        some (encodeCodePattern p1) := by
  have hne : savedFilename p1.name ≠ savedFilename p2.name := by
    intro he
    exact h (append_json_inj _ _ he)
  refine ⟨hne, ?_, ?_⟩
  · exact storeRead_write_ne _ _ _ _ (Ne.symm hne)
  · exact storeRead_write_self _ _ _

theorem savePattern_key_behavior_witness :
    (safeStorageName "Alpha" = true ∧ safeStorageName "Beta" = true ∧
      normalizeName "Alpha" ≠ normalizeName "Beta") ∧
      savedFilename "Alpha" ≠ savedFilename "Beta" ∧
      storeRead (savePattern (savePattern []
          { name := "Alpha", description := "", language := "Rust", files := [],
            created_at := "" })
          { name := "Beta", description := "", language := "Go", files := [],
            created_at := "" }) (savedFilename "Alpha") =
        storeRead (savePattern []
          { name := "Alpha", description := "", language := "Rust", files := [],
            created_at := "" }) (savedFilename "Alpha") ∧
      storeRead (savePattern []
          { name := "Alpha", description := "", language := "Rust", files := [],
            created_at := "" }) (savedFilename "Alpha") =
        some (encodeCodePattern
          { name := "Alpha", description := "", language := "Rust", files := [],
            created_at := "" }) :=
  ⟨⟨by decide, by decide, by decide⟩, savePattern_key_behavior []
    { name := "Alpha", description := "", language := "Rust", files := [],
      created_at := "" }
    { name := "Beta", description := "", language := "Go", files := [],
      created_at := "" } (by decide) (by decide) (by decide)⟩

/-! ### C7: setDefault on a missing name -/

/-- C7: when no loaded snapshot bears the requested name,
`set_default_scaff` returns the not-found error and both the in-memory
config and the on-disk store are exactly as before the call. -/
theorem set_default_scaff_not_found (cfg : ScaffConfig) (store : Store) (nm : String)
    (h : ∀ p ∈ loadPatterns store, p.name ≠ nm) :
    set_default_scaff cfg store nm =
      (Except.error ("Scaff '" ++ nm ++ "' not found"), cfg, store) := by
  unfold set_default_scaff
  have hany : ((loadPatterns store).any (fun p => p.name == nm)) = false := by
    rw [Bool.eq_false_iff]
    intro hc
    obtain ⟨p, hp, hpe⟩ := List.any_eq_true.mp hc
    exact h p hp (by simpa using hpe)
  simp [hany]

theorem set_default_scaff_not_found_witness :
    (∀ p ∈ loadPatterns [(savedFilename "other",
        encodeCodePattern { name := "other", description := "", language := "Rust",
                            files := [], created_at := "" })], p.name ≠ "missing") ∧
      set_default_scaff { default_scaff := some "other" }
          [(savedFilename "other",
            encodeCodePattern { name := "other", description := "", language := "Rust",
                                files := [], created_at := "" })] "missing" =
        (Except.error ("Scaff 'missing' not found"),
          { default_scaff := some "other" },
          [(savedFilename "other",
            encodeCodePattern { name := "other", description := "", language := "Rust",
                                files := [], created_at := "" })]) :=
  ⟨by decide, set_default_scaff_not_found _ _ _ (by decide)⟩

/-! ### C8: corrupt files are skipped -/

/-- C8: a store holding one undecodable `.json` file, the reserved
`config.json`, and one valid snapshot file loads to exactly the valid
snapshot, in either order of the corrupt and valid entries: the corrupt
file is skipped and `config.json` is never loaded as a snapshot. -/
theorem loadPatterns_skips_corrupt (f1 f2 : String) (bad c : JVal)
    (S : CodePattern)
    (h1e : fileExtension f1 = some "json") (h1c : f1 ≠ configFilename)
    (h2e : fileExtension f2 = some "json") (h2c : f2 ≠ configFilename)
    (hbad : decodeCodePattern bad = none) :
    loadPatterns [(f1, bad), (configFilename, c), (f2, encodeCodePattern S)] = [S] ∧
      loadPatterns [(f2, encodeCodePattern S), (configFilename, c), (f1, bad)] = [S] := by
  unfold loadPatterns
  constructor <;>
    simp [List.filterMap_cons, h1e, h1c, h2e, h2c, hbad, decodeCodePattern_encode]

theorem loadPatterns_skips_corrupt_witness :
    (fileExtension "broken.json" = some "json" ∧
      ("broken.json" : String) ≠ configFilename ∧
      fileExtension "good.json" = some "json" ∧
      ("good.json" : String) ≠ configFilename ∧
      decodeCodePattern (JVal.str "not a snapshot") = none) ∧
    loadPatterns [(("broken.json" : String), JVal.str "not a snapshot"),
        (configFilename, JVal.null),
        (("good.json" : String),
          encodeCodePattern { name := "good", description := "", language := "Rust",
                              files := [], created_at := "" })] =
      [{ name := "good", description := "", language := "Rust", files := [],
         created_at := "" }] ∧
    loadPatterns [(("good.json" : String),
          encodeCodePattern { name := "good", description := "", language := "Rust",
                              files := [], created_at := "" }),
        (configFilename, JVal.null),
        (("broken.json" : String), JVal.str "not a snapshot")] =
      [{ name := "good", description := "", language := "Rust", files := [],
         created_at := "" }] := by
  refine ⟨⟨by decide, by decide, by decide, by decide, rfl⟩, ?_⟩
  exact loadPatterns_skips_corrupt "broken.json" "good.json"
    (JVal.str "not a snapshot") JVal.null
    { name := "good", description := "", language := "Rust", files := [],
      created_at := "" } (by decide) (by decide) (by decide) (by decide) rfl

/-- C9: with no override template registered — the state of
`CodeGenerator::new()` in a repository without a `templates/` directory —
skeleton generation of every Rust or JS file FAILS instead of falling
back to the built-in default template: `generate_rust_file` and
`generate_js_file` register the default on a clone of `self.handlebars`
that is immediately dropped and then render the fallback name from the
original registry, which does not contain it. This contradicts the
spec's guaranteed deterministic fallback and the code's own test
`test_generate_js_file`. -/
theorem generate_fallback_fails (file_pattern : FilePattern) (pattern : CodePattern) :
    generate_rust_file newGeneratorRegistry file_pattern pattern =
      Except.error "Template not found default_rust_file" ∧
    generate_js_file newGeneratorRegistry file_pattern pattern =
      Except.error "Template not found default_js_file" := by
  constructor <;> rfl

/-- C10: for every directory and scan behaviour, a language id that is
not one of the nine supported ids makes `scan_language_files_in_dir`
return the empty list — silent emptiness, not an error. -/
theorem scan_unknown_language_empty
    (scanDirRecursive : String → String → List FilePattern) (dir language : String)
    (h : ∀ cfg ∈ SUPPORTED_LANGUAGES, cfg.name ≠ language) :
    scan_language_files_in_dir scanDirRecursive dir language = [] := by
  simp only [SUPPORTED_LANGUAGES, List.forall_mem_cons, List.forall_mem_nil] at h
  obtain ⟨n1, n2, n3, n4, n5, n6, n7, n8, n9, -⟩ := h
  have hg : languageGrammar language = none := by
    unfold languageGrammar
    rw [if_neg (Ne.symm n1), if_neg (Ne.symm n2), if_neg (Ne.symm n3),
      if_neg (Ne.symm n4), if_neg (Ne.symm n5), if_neg (Ne.symm n6),
      if_neg (Ne.symm n7), if_neg (Ne.symm n8), if_neg (Ne.symm n9)]
  unfold scan_language_files_in_dir
  rw [hg]

theorem scan_unknown_language_empty_witness :
    (∀ cfg ∈ SUPPORTED_LANGUAGES, cfg.name ≠ "fortran") ∧
      scan_language_files_in_dir (fun _ _ => []) "." "fortran" = [] :=
  ⟨by decide, scan_unknown_language_empty (fun _ _ => []) "." "fortran" (by decide)⟩

/-- C4 counterexample: a declaration name listed twice in one category,
removed from the current file, produces TWO missing items (one per
snapshot-side occurrence), not exactly one. -/
theorem compare_items_duplicate_name_counterexample :
    (compare_structures
      { name := "dupname", description := "", language := "Rust",
        files := [{ path := "src/d", extension := "rs", classes := [],
                    functions := ["f", "f"], structs := [], implementations := [] }],
        created_at := "" }
      [{ path := "src/d", extension := "rs", classes := [],
         functions := [], structs := [], implementations := [] }]).missing_items =
      [⟨"src/d", "function", "f"⟩, ⟨"src/d", "function", "f"⟩] := by
  decide
